import Mathlib

/-!
Verification development for the KrillClaw bridge (src/bridge/bridge/).

The development shallowly embeds the framed device transport, the RPC
dispatcher (`KrillClawBridge`), the multi-channel router
(`bridge/channels/__init__.py`) and the MQTT / Telegram channel adapters.
Python's `json` module is modelled by an executable JSON value type with
a parser (`json_loads`) and a serialiser (`json_dumps`) covering the
fragment the bridge exchanges (null, booleans, integers, strings, arrays,
objects; `ensure_ascii` escaping and floats are outside the modelled
fragment).  Python exceptions are modelled with the `Except` monad: a
`.error` value is an exception propagating out of the translated
expression, and `try/except` blocks are translated as matches on that
`Except` value.  External effects (the Anthropic client, `subprocess`,
the file system, the MQTT client, the Telegram HTTP API) are parameters
of a `BridgeCtx` record: each may return a value or raise.
-/

/-- JSON values as produced by `json.loads` (integers only; the bridge's
payloads carry no floats). -/
inductive Json where
  | null : Json
  | bool : Bool → Json
  | num : Int → Json
  | str : String → Json
  | arr : List Json → Json
  | obj : List (String × Json) → Json

/-- Python exceptions that the translated code can raise. -/
inductive PyErr where
  | jsonDecodeError (msg : String)
  | keyError (k : String)
  | incompleteRead
  | connectionReset
  | serialException
  | exc (msg : String)
deriving Repr, DecidableEq

/-- Message text of an exception, as used where the code formats `str(e)`. -/
def errStr : PyErr → String
  | .jsonDecodeError m => m
  | .keyError k => "KeyError: " ++ k
  | .incompleteRead => "IncompleteReadError"
  | .connectionReset => "ConnectionResetError"
  | .serialException => "SerialException: device disconnected"
  | .exc m => m

def lbraceC : Char := Char.ofNat 123
def rbraceC : Char := Char.ofNat 125
def lbraceS : String := String.mk [lbraceC]
def rbraceS : String := String.mk [rbraceC]

/-- First-match association-list lookup; models `dict.get` on dictionaries
whose keys are unique (the parser collapses duplicates, as `json.loads`
does). -/
def alookup {α : Type} : List (String × α) → String → Option α
  | [], _ => none
  | (k2, v) :: rest, k => if k2 = k then some v else alookup rest k

/-- Replacement insert: models assignment into a Python `dict` (the value
of an existing key is overwritten in place). -/
def insert_field (fs : List (String × Json)) (k : String) (v : Json) : List (String × Json) :=
  match fs with
  | [] => [(k, v)]
  | (k2, v2) :: rest => if k2 = k then (k2, v) :: rest else (k2, v2) :: insert_field rest k v

def skipWs : List Char → List Char
  | c :: cs => if c = ' ' ∨ c = '\t' ∨ c = '\n' ∨ c = '\r' then skipWs cs else c :: cs
  | [] => []

/-- Body of a JSON string literal, after the opening quote (basic escapes;
`\u` escapes are outside the modelled fragment). -/
def parse_string_body : List Char → List Char → Except PyErr (String × List Char)
  | '"' :: rest, acc => .ok (String.mk acc.reverse, rest)
  | '\\' :: e :: rest, acc =>
    if e = '"' then parse_string_body rest ('"' :: acc)
    else if e = '\\' then parse_string_body rest ('\\' :: acc)
    else if e = '/' then parse_string_body rest ('/' :: acc)
    else if e = 'n' then parse_string_body rest ('\n' :: acc)
    else if e = 't' then parse_string_body rest ('\t' :: acc)
    else if e = 'r' then parse_string_body rest ('\r' :: acc)
    else if e = 'b' then parse_string_body rest (Char.ofNat 8 :: acc)
    else if e = 'f' then parse_string_body rest (Char.ofNat 12 :: acc)
    else .error (.jsonDecodeError "Invalid escape")
  | '\\' :: [], _ => .error (.jsonDecodeError "Unterminated string")
  | c :: rest, acc => parse_string_body rest (c :: acc)
  | [], _ => .error (.jsonDecodeError "Unterminated string")

def digits_val (ds : List Char) : Nat := ds.foldl (fun a c => a * 10 + (c.toNat - 48)) 0

def parse_number : List Char → Except PyErr (Json × List Char)
  | cs =>
    let (neg, cs1) := match cs with
      | '-' :: r => (true, r)
      | _ => (false, cs)
    let ds := cs1.takeWhile Char.isDigit
    let rest := cs1.dropWhile Char.isDigit
    if ds.isEmpty then .error (.jsonDecodeError "Expecting value")
    else .ok (.num (if neg then -(digits_val ds : Int) else (digits_val ds : Int)), rest)

def expect_lit : List Char → List Char → Except PyErr (List Char)
  | [], cs => .ok cs
  | l :: ls, c :: cs => if c = l then expect_lit ls cs else .error (.jsonDecodeError "Expecting value")
  | _ :: _, [] => .error (.jsonDecodeError "Expecting value")

mutual

/-- Recursive-descent JSON value parser (fuel-indexed so that recursion is
structural and the definition evaluates by `rfl`). -/
def parse_val : Nat → List Char → Except PyErr (Json × List Char)
  | 0, _ => .error (.jsonDecodeError "Expecting value")
  | fuel + 1, cs0 =>
    match skipWs cs0 with
    | [] => .error (.jsonDecodeError "Expecting value")
    | c :: rest =>
      if c = '"' then
        match parse_string_body rest [] with
        | .ok (s, rest2) => .ok (.str s, rest2)
        | .error e => .error e
      else if c = '[' then
        match skipWs rest with
        | ']' :: rest2 => .ok (.arr [], rest2)
        | cs1 => parse_arr_items fuel cs1 []
      else if c = lbraceC then
        match skipWs rest with
        | r :: rest2 =>
          if r = rbraceC then .ok (.obj [], rest2)
          else parse_obj_items fuel (r :: rest2) []
        | [] => .error (.jsonDecodeError "Expecting property name")
      else if c = 't' then
        match expect_lit ['r', 'u', 'e'] rest with
        | .ok rest2 => .ok (.bool true, rest2)
        | .error e => .error e
      else if c = 'f' then
        match expect_lit ['a', 'l', 's', 'e'] rest with
        | .ok rest2 => .ok (.bool false, rest2)
        | .error e => .error e
      else if c = 'n' then
        match expect_lit ['u', 'l', 'l'] rest with
        | .ok rest2 => .ok (.null, rest2)
        | .error e => .error e
      else if c = '-' ∨ c.isDigit then parse_number (c :: rest)
      else .error (.jsonDecodeError "Expecting value")

def parse_arr_items : Nat → List Char → List Json → Except PyErr (Json × List Char)
  | 0, _, _ => .error (.jsonDecodeError "Expecting value")
  | fuel + 1, cs, acc =>
    match parse_val fuel cs with
    | .error e => .error e
    | .ok (v, rest) =>
      match skipWs rest with
      | ',' :: rest2 => parse_arr_items fuel rest2 (v :: acc)
      | ']' :: rest2 => .ok (.arr (v :: acc).reverse, rest2)
      | _ => .error (.jsonDecodeError "Expecting comma delimiter")

def parse_obj_items : Nat → List Char → List (String × Json) → Except PyErr (Json × List Char)
  | 0, _, _ => .error (.jsonDecodeError "Expecting value")
  | fuel + 1, cs, acc =>
    match skipWs cs with
    | '"' :: rest =>
      match parse_string_body rest [] with
      | .error e => .error e
      | .ok (k, rest2) =>
        match skipWs rest2 with
        | ':' :: rest3 =>
          match parse_val fuel rest3 with
          | .error e => .error e
          | .ok (v, rest4) =>
            match skipWs rest4 with
            | ',' :: rest5 => parse_obj_items fuel rest5 (insert_field acc k v)
            | r :: rest5 =>
              if r = rbraceC then .ok (.obj (insert_field acc k v), rest5)
              else .error (.jsonDecodeError "Expecting comma delimiter")
            | [] => .error (.jsonDecodeError "Expecting comma delimiter")
        | _ => .error (.jsonDecodeError "Expecting colon delimiter")
    | _ => .error (.jsonDecodeError "Expecting property name")

end

/-- Model of `json.loads`: parse one value, tolerate trailing whitespace,
raise `json.JSONDecodeError` otherwise. -/
def json_loads (s : String) : Except PyErr Json :=
  match parse_val (4 * s.length + 8) s.data with
  | .error e => .error e
  | .ok (j, rest) =>
    if (skipWs rest).isEmpty then .ok j else .error (.jsonDecodeError "Extra data")

def escape_char (c : Char) : List Char :=
  if c = '"' then ['\\', '"']
  else if c = '\\' then ['\\', '\\']
  else if c = '\n' then ['\\', 'n']
  else if c = '\t' then ['\\', 't']
  else if c = '\r' then ['\\', 'r']
  else [c]

def dumps_string (s : String) : String :=
  String.mk ('"' :: (s.data.map escape_char).flatten ++ ['"'])

mutual

/-- Model of `json.dumps` with the default separators `", "` and `": "`,
as the bridge calls it. -/
def json_dumps : Json → String
  | .null => "null"
  | .bool b => if b then "true" else "false"
  | .num n => toString n
  | .str s => dumps_string s
  | .arr xs => "[" ++ dumps_arr xs ++ "]"
  | .obj fs => lbraceS ++ dumps_obj fs ++ rbraceS

def dumps_arr : List Json → String
  | [] => ""
  | [x] => json_dumps x
  | x :: y :: xs => json_dumps x ++ ", " ++ dumps_arr (y :: xs)

def dumps_obj : List (String × Json) → String
  | [] => ""
  | [(k, v)] => dumps_string k ++ ": " ++ json_dumps v
  | (k, v) :: f :: fs => dumps_string k ++ ": " ++ json_dumps v ++ ", " ++ dumps_obj (f :: fs)

end

/-- Python `str()` / f-string interpolation of a decoded JSON value, for the
scalar values the bridge interpolates into its error strings. -/
def pyStr : Json → String
  | .str s => s
  | .num n => toString n
  | .bool true => "True"
  | .bool false => "False"
  | .null => "None"
  | .arr xs => json_dumps (.arr xs)
  | .obj fs => json_dumps (.obj fs)

/-- Model of `d.get(k, default)`; raises `AttributeError` when the receiver
is not a dict, as Python does. -/
def pyGet (j : Json) (k : String) (d : Json) : Except PyErr Json :=
  match j with
  | .obj fs => .ok ((alookup fs k).getD d)
  | _ => .error (.exc ("AttributeError: get on non-dict (key " ++ k ++ ")"))

/-- Model of `d[k]`; raises `KeyError` for a missing key and `TypeError`
for a non-dict receiver. -/
def pySubscript (j : Json) (k : String) : Except PyErr Json :=
  match j with
  | .obj fs =>
    match alookup fs k with
    | some v => .ok v
    | none => .error (.keyError k)
  | _ => .error (.exc ("TypeError: subscript on non-dict (key " ++ k ++ ")"))

/-- A decoded value used where Python requires `str` (subprocess argument,
file path, file content): a non-string raises `TypeError`. -/
def expectStr (j : Json) : Except PyErr String :=
  match j with
  | .str s => .ok s
  | _ => .error (.exc "TypeError: expected str")

/-- Lift a failure of an external collaborator into a Python exception. -/
def pyCall {α : Type} : Except String α → Except PyErr α
  | .ok a => .ok a
  | .error m => .error (.exc m)

/-- Result of `subprocess.run(..., capture_output=True, text=True)`. -/
structure ShellResult where
  stdout : String
  stderr : String
  returncode : Int
deriving Repr, DecidableEq

/-- The bridge's configuration together with its external collaborators
(`bridge.py` `KrillClawBridge`): the Anthropic client, `subprocess`,
file I/O and `grep`.  Each collaborator may return a value or raise. -/
structure BridgeCtx where
  model : String
  client_call : Json → Except String String
  run_shell : String → Except String ShellResult
  fs_read : String → Except String String
  fs_write : String → String → Except String Unit
  run_grep : String → String → Except String String

/-- Branch `name == "bash"` of `KrillClawBridge._handle_tool`
(bridge.py lines 647-662). -/
def tool_bash (ctx : BridgeCtx) (input_data : Json) : Except PyErr String := do
  let cmdJ ← pySubscript input_data "command"
  let cmd ← expectStr cmdJ
  let res ← pyCall (ctx.run_shell cmd)
  let output := res.stdout ++ (if res.stderr ≠ "" then "\n--- stderr ---\n" ++ res.stderr else "")
  let output2 := if output = "" then "(no output)" else output
  .ok (json_dumps (.obj [("type", .str "tool_result"), ("output", .str output2),
    ("is_error", .bool (res.returncode != 0))]))

/-- Branch `name == "read_file"` (bridge.py lines 664-671). -/
def tool_read_file (ctx : BridgeCtx) (input_data : Json) : Except PyErr String := do
  let pathJ ← pySubscript input_data "path"
  let path ← expectStr pathJ
  let content ← pyCall (ctx.fs_read path)
  let output := if content = "" then "(empty file)" else content
  .ok (json_dumps (.obj [("type", .str "tool_result"), ("output", .str output),
    ("is_error", .bool false)]))

/-- Branch `name == "write_file"` (bridge.py lines 673-682). -/
def tool_write_file (ctx : BridgeCtx) (input_data : Json) : Except PyErr String := do
  let pathJ ← pySubscript input_data "path"
  let path ← expectStr pathJ
  let contentJ ← pySubscript input_data "content"
  let content ← expectStr contentJ
  let _ ← pyCall (ctx.fs_write path content)
  .ok (json_dumps (.obj [("type", .str "tool_result"),
    ("output", .str ("Wrote " ++ toString content.length ++ " bytes to " ++ path)),
    ("is_error", .bool false)]))

/-- Branch `name == "search"` (bridge.py lines 684-701). -/
def tool_search (ctx : BridgeCtx) (input_data : Json) : Except PyErr String := do
  let search_pathJ ← pyGet input_data "path" (.str ".")
  let patternJ ← pySubscript input_data "pattern"
  let pat ← expectStr patternJ
  let search_path ← expectStr search_pathJ
  let out ← pyCall (ctx.run_grep pat search_path)
  let lines := out.splitOn "\n"
  let output :=
    if lines.length > 100 then
      String.intercalate "\n" (lines.take 100) ++ "\n... (" ++ toString lines.length ++ " total lines)"
    else out
  let output2 := if output = "" then "No matches found" else output
  .ok (json_dumps (.obj [("type", .str "tool_result"), ("output", .str output2),
    ("is_error", .bool false)]))

/-- Fallback branch of `_handle_tool` for an unknown tool name
(bridge.py lines 703-708). -/
def unknown_tool_reply (t : Json) : Except PyErr String :=
  .ok (json_dumps (.obj [("type", .str "tool_result"),
    ("output", .str ("Unknown tool: " ++ pyStr t)), ("is_error", .bool true)]))

/-- The `try` block of `_handle_tool` (bridge.py lines 646-708): dispatch on
the tool name, as Python's `==` comparisons do (a non-string name matches
no branch). -/
def try_tool (ctx : BridgeCtx) (name input_data : Json) : Except PyErr String :=
  match name with
  | .str s =>
    if s = "bash" then tool_bash ctx input_data
    else if s = "read_file" then tool_read_file ctx input_data
    else if s = "write_file" then tool_write_file ctx input_data
    else if s = "search" then tool_search ctx input_data
    else unknown_tool_reply (.str s)
  | t => unknown_tool_reply t

/-- The `except Exception` arm of `_handle_tool` (bridge.py lines 710-715). -/
def tool_error_reply (e : PyErr) : String :=
  json_dumps (.obj [("type", .str "tool_result"), ("output", .str (errStr e)),
    ("is_error", .bool true)])

/-- The `isinstance(input_data, str)` decode on bridge.py lines 643-644;
this runs before the `try` block, so a decode failure raises out of
`_handle_tool`. -/
def decode_input : Json → Except PyErr Json
  | .str s => json_loads s
  | j => .ok j

/-- `KrillClawBridge._handle_tool` (bridge.py lines 639-715). -/
def handle_tool (ctx : BridgeCtx) (msg : Json) : Except PyErr String := do
  let name ← pyGet msg "name" (.str "")
  let input0 ← pyGet msg "input" (.obj [])
  let input_data ← decode_input input0
  .ok (match try_tool ctx name input_data with
    | .ok s => s
    | .error e => tool_error_reply e)

/-- The `try` block of `_handle_api` (bridge.py lines 621-628): the
`body.get` argument expressions and the client call, any of which may
raise. -/
def api_try (ctx : BridgeCtx) (body : Json) : Except PyErr String := do
  let _m ← pyGet body "model" (.str ctx.model)
  let _mt ← pyGet body "max_tokens" (.num 8192)
  let _sys ← pyGet body "system" (.str "")
  let _tools ← pyGet body "tools" (.arr [])
  let _msgs ← pyGet body "messages" (.arr [])
  pyCall (ctx.client_call body)

/-- `KrillClawBridge._handle_api` (bridge.py lines 617-637).  The
`json.loads(msg.get("body", "\x7b\x7d"))` on line 619 runs before the
`try`, so its failure raises out of the handler. -/
def handle_api (ctx : BridgeCtx) (msg : Json) : Except PyErr String := do
  let bodyJ ← pyGet msg "body" (.str "\x7b\x7d")
  let body ← (match bodyJ with
    | .str s => json_loads s
    | _ => Except.error (PyErr.exc "TypeError: the JSON object must be str"))
  match api_try ctx body with
  | .ok respBody =>
    .ok (json_dumps (.obj [("type", .str "api_result"), ("body", .str respBody)]))
  | .error e =>
    .ok (json_dumps (.obj [("type", .str "api_result"), ("error", .str (errStr e))]))

/-- Reply for an unrecognised `type` discriminator (bridge.py line 615). -/
def unknown_type_reply (t : Json) : Except PyErr String :=
  .ok (json_dumps (.obj [("error", .str ("Unknown type: " ++ pyStr t))]))

/-- Dispatch of `KrillClawBridge.handle_message` after the payload has been
decoded (bridge.py lines 608-615); the `==` comparisons only match string
discriminators. -/
def handle_message_parsed (ctx : BridgeCtx) (msg : Json) : Except PyErr String := do
  let msg_type ← pyGet msg "type" (.str "")
  match msg_type with
  | .str s =>
    if s = "api" then handle_api ctx msg
    else if s = "tool" then handle_tool ctx msg
    else unknown_type_reply (.str s)
  | t => unknown_type_reply t

/-- `KrillClawBridge.handle_message` (bridge.py lines 605-615).  The
`json.loads(data)` on line 607 is not guarded: a decode failure raises
out of this function. -/
def handle_message (ctx : BridgeCtx) (data : String) : Except PyErr String := do
  let msg ← json_loads data
  handle_message_parsed ctx msg

/-- Model of `reader.readexactly(n)` / a full read on a finite stream that
then closes: fewer than `n` bytes remaining raises `IncompleteReadError`. -/
def read_exactly (n : Nat) (s : List Nat) : Except PyErr (List Nat × List Nat) :=
  if s.length < n then .error .incompleteRead else .ok (s.take n, s.drop n)

/-- Model of `struct.pack(">H", n)`: two big-endian bytes; out of range
raises `struct.error`. -/
def pack_u16be (n : Nat) : Except PyErr (List Nat) :=
  if n ≤ 65535 then .ok [n / 256, n % 256] else .error (.exc "struct.error: ushort out of range")

/-- Model of `struct.unpack(">H", b)[0]` on a two-byte buffer. -/
def unpack_u16be (b : List Nat) : Nat := 256 * b.headD 0 + (b.drop 1).headD 0

/-- Frame encoding as the transport writes it (bridge.py lines 737-738 and
776-777): the two-byte big-endian length followed by the payload. -/
def encodeFrame (p : List Nat) : Except PyErr (List Nat) := do
  let h ← pack_u16be p.length
  .ok (h ++ p)

/-- Frame decoding as the transport reads it (bridge.py lines 727-729):
read the two-byte header fully, then exactly that many payload bytes;
returns the payload and the remaining stream. -/
def decodeFrame (s : List Nat) : Except PyErr (List Nat × List Nat) := do
  let (len_data, rest) ← read_exactly 2 s
  read_exactly (unpack_u16be len_data) rest

/-- Payload bytes handed to `handle_message`, decoded as text.  The bridge
exchanges UTF-8 JSON; the model covers the ASCII subset, one byte per
character. -/
def strOfBytes (bs : List Nat) : String := String.mk (bs.map Char.ofNat)

def bytesOfStr (s : String) : List Nat := s.data.map Char.toNat

/-- Outcome of one iteration of the socket client loop. -/
inductive SessionOutcome where
  | reply (frame : List Nat) (rest : List Nat)
  | disconnected
  | crashed (e : PyErr)
deriving Repr, DecidableEq

/-- One iteration of `socket_server.handle_client` (bridge.py lines
723-743) on a stream that closes after the listed bytes.  The enclosing
`try` catches exactly `asyncio.IncompleteReadError` and
`ConnectionResetError`; any other exception leaves the loop uncaught and
kills the handler task. -/
def socket_step (ctx : BridgeCtx) (stream : List Nat) : SessionOutcome :=
  match (do
      let (msg_data, rest) ← decodeFrame stream
      let response ← handle_message ctx (strOfBytes msg_data)
      Except.ok (response, rest) : Except PyErr (String × List Nat)) with
  | .ok (resp, rest) =>
    match pack_u16be (bytesOfStr resp).length with
    | .ok h => .reply (h ++ bytesOfStr resp) rest
    | .error e => .crashed e
  | .error .incompleteRead => .disconnected
  | .error .connectionReset => .disconnected
  | .error e => .crashed e

/-- Outcome of one iteration of the serial loop. -/
inductive SerialOutcome where
  | retry (rest : List Nat)
  | exchanged (msg_data : List Nat) (rest : List Nat)
  | crashed (e : PyErr)
deriving Repr, DecidableEq

/-- Model of `ser.read(n)` on the port `serial_bridge` opens with
`timeout=None` (bridge.py line 760): the call blocks until exactly `n`
bytes have arrived and raises `SerialException` if the device
disconnects (the stream closes) first; it never returns fewer bytes than
requested.  On a stream that closes after the listed bytes, a request
for more than remains therefore raises. -/
def serial_read (n : Nat) (s : List Nat) : Except PyErr (List Nat × List Nat) :=
  if s.length < n then .error .serialException else .ok (s.take n, s.drop n)

/-- One iteration of the `serial_bridge` loop (bridge.py lines 763-777) on
a stream that closes after the listed bytes.  The loop body has no
enclosing `try`, so a `SerialException` propagates and terminates
`serial_bridge` (`crashed`).  The `len(len_data) < 2` guard on line 765
is translated as in the source (`retry`); under the blocking read
semantics a successful 2-byte read always returns 2 bytes, so the guard
is unreachable. -/
def serial_step (stream : List Nat) : SerialOutcome :=
  match serial_read 2 stream with
  | .error e => .crashed e
  | .ok (len_data, rest) =>
    if len_data.length < 2 then .retry rest
    else
      let msg_len := unpack_u16be len_data
      match serial_read msg_len rest with
      | .error e => .crashed e
      | .ok (msg_data, rest2) => .exchanged msg_data rest2

/-- Normalized cross-channel message (channels/__init__.py lines 17-23). -/
structure IncomingMessage where
  channel : String
  channel_id : String
  sender_id : String
  text : String
deriving Repr, DecidableEq

/-- A registered channel as the router sees it: its `send`, which may
raise. -/
structure ChannelM where
  send : String → String → Except PyErr Unit

/-- Observable outcome of `MessageRouter._dispatch`: the `send` invocations
made (arguments, in order), whether the `send` raised (and was logged),
and the returned reply.  `_dispatch` itself always returns normally. -/
structure DispatchResult where
  sends : List (String × String)
  send_failed : Bool
  result : String

/-- The reply computed by `_dispatch` (channels/__init__.py lines 93-97):
the handler result, or the formatted error string when the handler
raises. -/
def dispatch_reply (handler : IncomingMessage → Except PyErr String)
    (msg : IncomingMessage) : String :=
  match handler msg with
  | .ok r => r
  | .error e => "[error] " ++ errStr e

/-- `MessageRouter._dispatch` (channels/__init__.py lines 88-107): compute
the reply, look up the originating channel, call its `send` once inside a
`try/except` that logs and swallows any exception. -/
def router_dispatch (channels : List (String × ChannelM))
    (handler : IncomingMessage → Except PyErr String)
    (msg : IncomingMessage) : DispatchResult :=
  let response := dispatch_reply handler msg
  match alookup channels msg.channel with
  | some ch =>
    { sends := [(msg.channel_id, response)],
      send_failed := match ch.send msg.channel_id response with
        | .ok _ => false
        | .error _ => true,
      result := response }
  | none => { sends := [], send_failed := false, result := response }

/-- Mutable state of an `MqttChannel` (mqtt.py lines 34-35). -/
structure MqttState where
  running : Bool
  client : Option Unit
deriving Repr, DecidableEq

/-- `MqttChannel.stop` (mqtt.py lines 90-95): clear `_running`; if a client
is present, invoke `loop_stop` and `disconnect` (returned as the effect
list) and drop it. -/
def mqtt_stop (st : MqttState) : MqttState × List String :=
  match st.client with
  | some _ => (⟨false, none⟩, ["loop_stop", "disconnect"])
  | none => (⟨false, st.client⟩, [])

/-- Router state relevant to `stop_all`: the task list and the states of
the registered channels (modelled with MQTT channels, the adapter the
spec names). -/
structure RouterState where
  tasks : List String
  mqtt_channels : List MqttState
deriving Repr, DecidableEq

/-- `MessageRouter.stop_all` (channels/__init__.py lines 80-86): cancel
every task, call `stop()` on every registered channel, clear the task
list.  Returns the new state and the external effects performed. -/
def stop_all (rs : RouterState) : RouterState × List String :=
  let cancels := rs.tasks.map (fun t => "cancel " ++ t)
  let stops := rs.mqtt_channels.map mqtt_stop
  (⟨[], stops.map Prod.fst⟩, cancels ++ (stops.map Prod.snd).flatten)

/-- An MQTT publish as `MqttChannel.send` performs it. -/
structure MqttPublish where
  topic : String
  payload : String

/-- `MqttChannel.send` (mqtt.py lines 83-88): with no client, warn and
return `none`; otherwise publish `json.dumps({"text": text, "topic":
channel_id})` to the configured publish topic.  The text is embedded
verbatim. -/
def mqtt_send (publish_topic : String) (client : Option Unit)
    (channel_id text : String) : Option MqttPublish :=
  match client with
  | none => none
  | some _ =>
    some { topic := publish_topic,
           payload := json_dumps (.obj [("text", .str text), ("topic", .str channel_id)]) }

/-- Python string slicing `s[:n]` by code point. -/
def pySlice (s : String) (n : Nat) : String := String.mk (s.data.take n)

/-- The text-preparation step of `TelegramChannel.send` (telegram.py lines
128-129), identical in `TelegramTransport._send_message` (bridge.py lines
901-902): texts longer than 4096 characters are cut to 4093 characters
plus an ellipsis. -/
def telegram_send_text (text : String) : String :=
  if text.length > 4096 then pySlice text 4093 ++ "..." else text

/-- Allowlist normalization in `TelegramChannel.__init__` (telegram.py
line 33) and `TelegramTransport.__init__` (bridge.py line 858):
`set(allowed_users) if allowed_users else None`, so both `None` and an
empty list are stored as `None`.  The Python set is modelled as the
deduplicated list. -/
def init_allowed_users (allowed_users : Option (List Int)) : Option (List Int) :=
  match allowed_users with
  | none => none
  | some l => if l.isEmpty then none else some l.dedup

/-- One Telegram update as the polling loop reads it. -/
structure TgMessageRec where
  text : Option String
  from_id : Option Int
  chat_id : Int
deriving Repr, DecidableEq

structure TgUpdate where
  update_id : Int
  message : Option TgMessageRec
deriving Repr, DecidableEq

/-- What the polling loop did with one update: skipped it (no message or
empty text), blocked it with a logged warning (handler never invoked), or
delivered the normalized message to `on_message`. -/
inductive UpdateOutcome where
  | skipped
  | blocked (user_id : Option Int)
  | delivered (msg : IncomingMessage)
deriving Repr, DecidableEq

/-- Truthiness of `self.allowed_users`: `None` and the empty set are
falsy. -/
def allow_truthy : Option (List Int) → Bool
  | none => false
  | some l => !l.isEmpty

/-- `user_id not in self.allowed_users`, negated: Python's `in` on a set of
ints; a `None` user id is a member of no such set. -/
def in_allow (uid : Option Int) (l : List Int) : Bool :=
  match uid with
  | some i => l.contains i
  | none => false

/-- Python `str()` of a possibly missing user id. -/
def pyStrOfOptInt : Option Int → String
  | some i => toString i
  | none => "None"

/-- The per-update body of `TelegramChannel.start` (telegram.py lines
102-125): skip updates with no message or empty text, drop the sender
with a warning when a non-empty allowlist excludes it, otherwise build
the `IncomingMessage` and await `on_message`. -/
def process_update (allowed_users : Option (List Int)) (u : TgUpdate) : UpdateOutcome :=
  match u.message with
  | none => .skipped
  | some m =>
    match m.text with
    | none => .skipped
    | some t =>
      if t = "" then .skipped
      else
        let user_id := m.from_id
        if allow_truthy allowed_users && !(in_allow user_id (allowed_users.getD [])) then
          .blocked user_id
        else
          .delivered { channel := "telegram", channel_id := toString m.chat_id,
                       sender_id := pyStrOfOptInt user_id, text := t }

/-- A concrete context whose external collaborators all raise; used to
evaluate code paths that never reach them. -/
def dummyCtx : BridgeCtx :=
  { model := "claude-sonnet-4-5-20250929",
    client_call := fun _ => .error "client unavailable",
    run_shell := fun _ => .error "subprocess unavailable",
    fs_read := fun _ => .error "fs unavailable",
    fs_write := fun _ _ => .error "fs unavailable",
    run_grep := fun _ _ => .error "grep unavailable" }

/-- Python `isinstance(x, str)` on a decoded JSON value. -/
def Json.isStr : Json → Bool
  | .str _ => true
  | _ => false

/-- A 5000-character reply text, the concrete instance named by the spec's
truncation property. -/
def big_reply : String := String.mk (List.replicate 5000 'a')

/-- A channel whose `send` always raises; used to witness that the router
swallows `send` failures. -/
def failing_channel : ChannelM := ⟨fun _ _ => .error (.exc "send failed")⟩

theorem mqtt_stopped_state (c : MqttState) : (mqtt_stop c).1 = ⟨false, none⟩ := by
  cases h : c.client <;> simp [mqtt_stop, h]

theorem stop_maps_fix (l : List MqttState)
    (h : ∀ x ∈ l, x = (⟨false, none⟩ : MqttState)) :
    (l.map mqtt_stop).map Prod.fst = l ∧ ((l.map mqtt_stop).map Prod.snd).flatten = [] := by
  induction l with
  | nil => simp
  | cons c cs ih =>
    have hc : c = (⟨false, none⟩ : MqttState) := h c (by simp)
    have ih2 := ih (fun x hx => h x (by simp [hx]))
    subst hc
    constructor
    · simp only [List.map_cons]
      rw [ih2.1]
      simp [mqtt_stop]
    · simp only [List.map_cons, List.flatten_cons]
      rw [ih2.2]
      simp [mqtt_stop]

/-- C1: for every byte payload of length at most 65535, encoding it as a
frame (two-byte big-endian length, then the payload, as the transport
writes) and decoding that frame (two-byte header, then exactly that many
payload bytes, as the transport reads) yields exactly the payload, with
nothing left over. -/
theorem frame_roundtrip (p : List Nat) (h : p.length ≤ 65535) :
    (encodeFrame p).bind decodeFrame = Except.ok (p, ([] : List Nat)) := by
  have hpack : pack_u16be p.length = .ok [p.length / 256, p.length % 256] := by
    simp [pack_u16be, h]
  have hup : unpack_u16be [p.length / 256, p.length % 256] = p.length := by
    simp [unpack_u16be]
    omega
  have hc2 : ¬ (p.length / 256 :: p.length % 256 :: p).length < 2 := by
    simp
  have hr1 : read_exactly 2 (p.length / 256 :: p.length % 256 :: p) =
      .ok ([p.length / 256, p.length % 256], p) := by
    simp [read_exactly, hc2, List.take, List.drop]
  have hr2 : read_exactly p.length p = .ok (p, []) := by
    simp [read_exactly]
  simp [encodeFrame, hpack, decodeFrame, bind, Except.bind, hr1, hup, hr2]

theorem frame_roundtrip_witness :
    ([1, 2, 3] : List Nat).length ≤ 65535 ∧
      (encodeFrame [1, 2, 3]).bind decodeFrame =
        Except.ok (([1, 2, 3] : List Nat), ([] : List Nat)) :=
  ⟨by decide, frame_roundtrip [1, 2, 3] (by decide)⟩

/-- C2 counterexample: the claim is false on the code.  The payload
"not json" fails JSON decoding; `handle_message` does not catch the
failure and propagates the exception instead of returning a structured
error reply, and the socket client loop — whose `except` clause catches
only `IncompleteReadError` and `ConnectionResetError` — crashes on the
frame carrying that payload instead of continuing to serve frames. -/
theorem c2_counterexample_json_error_kills_loop :
    json_loads "not json" = .error (.jsonDecodeError "Expecting value") ∧
      handle_message dummyCtx "not json" = .error (.jsonDecodeError "Expecting value") ∧
      socket_step dummyCtx [0, 8, 110, 111, 116, 32, 106, 115, 111, 110] =
        .crashed (.jsonDecodeError "Expecting value") :=
  ⟨rfl, rfl, rfl⟩

/-- C2 as amended: a JSON decode failure of an inbound payload is not
caught by `handle_message`; the `JSONDecodeError` propagates out, and
since the socket loop's `except` clause covers only stream-closure
exceptions, a well-framed message whose payload is not valid JSON crashes
the client handler task: no error reply is produced and the loop does not
continue. -/
theorem c2_amended_json_error_propagates (ctx : BridgeCtx) (s emsg : String)
    (p rest : List Nat)
    (hjson : json_loads s = .error (.jsonDecodeError emsg))
    (hdec : strOfBytes p = s) :
    handle_message ctx s = .error (.jsonDecodeError emsg) ∧
      socket_step ctx (p.length / 256 :: p.length % 256 :: (p ++ rest)) =
        .crashed (.jsonDecodeError emsg) := by
  have h1 : handle_message ctx s = .error (.jsonDecodeError emsg) := by
    simp [handle_message, hjson, bind, Except.bind]
  refine ⟨h1, ?_⟩
  have hc2 : ¬ (p.length / 256 :: p.length % 256 :: (p ++ rest)).length < 2 := by
    simp
  have hr1 : read_exactly 2 (p.length / 256 :: p.length % 256 :: (p ++ rest)) =
      .ok ([p.length / 256, p.length % 256], p ++ rest) := by
    simp [read_exactly, hc2, List.take, List.drop]
  have hup : unpack_u16be [p.length / 256, p.length % 256] = p.length := by
    simp [unpack_u16be]
    omega
  have hr2 : read_exactly p.length (p ++ rest) = .ok (p, rest) := by
    have hnl : ¬ (p ++ rest).length < p.length := by
      simp [List.length_append]
    simp [read_exactly, hnl, List.take_left, List.drop_left]
  have hdecf : decodeFrame (p.length / 256 :: p.length % 256 :: (p ++ rest)) = .ok (p, rest) := by
    simp [decodeFrame, bind, Except.bind, hr1, hup, hr2]
  simp [socket_step, hdecf, bind, Except.bind, hdec, h1]

theorem c2_amended_witness :
    handle_message dummyCtx "not json" = .error (.jsonDecodeError "Expecting value") ∧
      socket_step dummyCtx [0, 8, 110, 111, 116, 32, 106, 115, 111, 110] =
        .crashed (.jsonDecodeError "Expecting value") :=
  c2_amended_json_error_propagates dummyCtx "not json" "Expecting value"
    [110, 111, 116, 32, 106, 115, 111, 110] [] rfl rfl

/-- C3 counterexample: the claim is false on the code.  A tool request
whose `input` field is a string that is not valid JSON raises out of
`_handle_tool` (and out of `handle_message`): the `json.loads(input_data)`
on bridge.py line 644 runs before the `try` block, so this exception is
not converted into a `tool_result` reply. -/
theorem c3_counterexample_input_decode_escapes :
    handle_tool dummyCtx (Json.obj [("name", Json.str "bash"), ("input", Json.str "not json")]) =
        .error (.jsonDecodeError "Expecting value") ∧
      handle_message_parsed dummyCtx
          (Json.obj [("type", Json.str "tool"), ("name", Json.str "bash"),
            ("input", Json.str "not json")]) =
        .error (.jsonDecodeError "Expecting value") :=
  ⟨rfl, rfl⟩

/-- C3 as amended: for a tool request whose `input` field is not a string
(so the pre-`try` decode cannot raise), every exception raised inside the
`try` block of `_handle_tool` — tool handlers included — is caught and
returned as a `tool_result` reply with `is_error` true; only the decoding
of a string-valued `input` field, which runs before the `try`, can
propagate an exception to the caller. -/
theorem c3_amended_try_block_catches (ctx : BridgeCtx) (name input : Json)
    (h : input.isStr = false) :
    handle_tool ctx (Json.obj [("name", name), ("input", input)]) =
        .ok (match try_tool ctx name input with
          | .ok s => s
          | .error e => tool_error_reply e) ∧
      ∀ e, try_tool ctx name input = .error e →
        handle_tool ctx (Json.obj [("name", name), ("input", input)]) =
          .ok (tool_error_reply e) := by
  have hdec : decode_input input = .ok input := by
    cases input <;> simp [decode_input, Json.isStr] at h ⊢
  have h1 : handle_tool ctx (Json.obj [("name", name), ("input", input)]) =
      .ok (match try_tool ctx name input with
        | .ok s => s
        | .error e => tool_error_reply e) := by
    simp [handle_tool, pyGet, alookup, hdec, bind, Except.bind]
  refine ⟨h1, ?_⟩
  intro e he
  rw [h1, he]

theorem c3_amended_witness :
    Json.isStr (Json.obj []) = false ∧
      handle_tool dummyCtx (Json.obj [("name", Json.str "bash"), ("input", Json.obj [])]) =
        .ok (tool_error_reply (.keyError "command")) :=
  ⟨rfl, (c3_amended_try_block_catches dummyCtx (Json.str "bash") (Json.obj []) rfl).2
    (.keyError "command") rfl⟩

/-- C4: for every inbound message whose channel name is registered,
`_dispatch` invokes that channel's `send` exactly once, with the message's
`channel_id` and the computed reply; when the handler raises, that reply
is the formatted error string `"[error] <exc>"`; and `_dispatch` returns
the reply normally whatever `send` does (a `send` exception is caught and
logged). -/
theorem c4_dispatch_sends_once (channels : List (String × ChannelM))
    (handler : IncomingMessage → Except PyErr String) (msg : IncomingMessage)
    (ch : ChannelM) (h : alookup channels msg.channel = some ch) :
    (router_dispatch channels handler msg).sends =
        [(msg.channel_id, dispatch_reply handler msg)] ∧
      (∀ e, handler msg = .error e →
        dispatch_reply handler msg = "[error] " ++ errStr e) ∧
      (router_dispatch channels handler msg).result = dispatch_reply handler msg := by
  refine ⟨?_, ?_, ?_⟩
  · simp [router_dispatch, h]
  · intro e he
    simp [dispatch_reply, he]
  · simp [router_dispatch, h]

theorem c4_witness :
    (router_dispatch [("telegram", failing_channel)]
          (fun _ => .error (.exc "boom")) ⟨"telegram", "42", "7", "hi"⟩).sends =
        [("42", "[error] boom")] ∧
      (router_dispatch [("telegram", failing_channel)]
          (fun _ => .error (.exc "boom")) ⟨"telegram", "42", "7", "hi"⟩).result =
        "[error] boom" :=
  ⟨(c4_dispatch_sends_once [("telegram", failing_channel)]
      (fun _ => .error (.exc "boom")) ⟨"telegram", "42", "7", "hi"⟩ failing_channel rfl).1,
   (c4_dispatch_sends_once [("telegram", failing_channel)]
      (fun _ => .error (.exc "boom")) ⟨"telegram", "42", "7", "hi"⟩ failing_channel rfl).2.2⟩

theorem big_reply_length : big_reply.length = 5000 := by
  show (List.replicate 5000 'a').length = 5000
  rw [List.length_replicate]

theorem big_reply_slice_length : (pySlice big_reply 4093).length = 4093 := by
  show ((List.replicate 5000 'a').take 4093).length = 4093
  rw [List.length_take, List.length_replicate]
  omega

theorem big_reply_truncated_length : (pySlice big_reply 4093 ++ "...").length = 4096 := by
  rw [String.length_append, big_reply_slice_length]
  rfl

theorem big_reply_not_truncated : big_reply ≠ pySlice big_reply 4093 ++ "..." := by
  intro h
  have hl := congrArg String.length h
  rw [big_reply_length, big_reply_truncated_length] at hl
  omega

/-- C5 counterexample: the claim is false on the code.  `MqttChannel.send`
performs no truncation: a 5000-character reply is embedded verbatim in the
published JSON payload, not cut to 4093 characters plus an ellipsis. -/
theorem c5_counterexample_mqtt_publishes_untruncated :
    mqtt_send "krillclaw/out" (some ()) "krillclaw/in" big_reply =
        some ⟨"krillclaw/out",
          json_dumps (Json.obj [("text", Json.str big_reply),
            ("topic", Json.str "krillclaw/in")])⟩ ∧
      big_reply.length = 5000 ∧
      big_reply ≠ pySlice big_reply 4093 ++ "..." :=
  ⟨rfl, big_reply_length, big_reply_not_truncated⟩

/-- C5 as amended: the 4096-character ceiling with truncation to 4093
characters plus "..." is implemented in the Telegram (long-poll) channel's
`send`, not in the MQTT (pub/sub) channel's `send`: the MQTT channel
publishes the reply text verbatim. -/
theorem c5_amended_truncation_in_telegram (text : String) (h : 4096 < text.length) :
    telegram_send_text text = pySlice text 4093 ++ "..." ∧
      ∀ topic cid, mqtt_send topic (some ()) cid text =
        some ⟨topic, json_dumps (Json.obj [("text", Json.str text),
          ("topic", Json.str cid)])⟩ := by
  refine ⟨?_, fun topic cid => rfl⟩
  simp [telegram_send_text, h]

theorem c5_amended_witness :
    4096 < big_reply.length ∧
      telegram_send_text big_reply = pySlice big_reply 4093 ++ "..." :=
  ⟨by rw [big_reply_length]; omega,
   (c5_amended_truncation_in_telegram big_reply (by rw [big_reply_length]; omega)).1⟩

/-- C6: on a stream that closes after fewer than 2 header bytes, or after
the header but before the announced number of payload bytes, both framed
transports fail hard — the socket loop catches the `IncompleteReadError`
and ends the session, and the serial loop's `SerialException` (raised by
the blocking read on disconnect) propagates uncaught and terminates
`serial_bridge` — and neither ever hands a partial or padded frame to the
layer above: whenever the serial loop does reach `handle_message`, the
payload has exactly the length the header announced (and the socket
payload is exact by `readexactly`). -/
theorem c6_short_read_closes_never_partial (ctx : BridgeCtx)
    (s : List Nat) (a b : Nat) (p : List Nat)
    (h1 : s.length < 2) (h2 : p.length < 256 * a + b) :
    socket_step ctx s = .disconnected ∧
      socket_step ctx (a :: b :: p) = .disconnected ∧
      serial_step s = .crashed .serialException ∧
      serial_step (a :: b :: p) = .crashed .serialException ∧
      ∀ (t md rest2 : List Nat), serial_step t = .exchanged md rest2 →
        md.length = unpack_u16be (t.take 2) := by
  refine ⟨?_, ?_, ?_, ?_, ?_⟩
  · have hr : read_exactly 2 s = .error .incompleteRead := by
      simp [read_exactly, h1]
    simp [socket_step, decodeFrame, hr, bind, Except.bind]
  · have hc2 : ¬ (a :: b :: p).length < 2 := by
      simp
    have hr1 : read_exactly 2 (a :: b :: p) = .ok ([a, b], p) := by
      simp [read_exactly, hc2, List.take, List.drop]
    have hu : unpack_u16be [a, b] = 256 * a + b := by
      simp [unpack_u16be]
    have hr2 : read_exactly (256 * a + b) p = .error .incompleteRead := by
      simp [read_exactly, h2]
    simp [socket_step, decodeFrame, hr1, hu, hr2, bind, Except.bind]
  · simp [serial_step, serial_read, h1]
  · have hc2 : ¬ (a :: b :: p).length < 2 := by
      simp
    have hr1 : serial_read 2 (a :: b :: p) = .ok ([a, b], p) := by
      simp [serial_read, hc2, List.take, List.drop]
    have hu : unpack_u16be [a, b] = 256 * a + b := by
      simp [unpack_u16be]
    have hr2 : serial_read (256 * a + b) p = .error .serialException := by
      simp [serial_read, h2]
    simp [serial_step, hr1, hu, hr2]
  · intro t md rest2 hstep
    by_cases ht : t.length < 2
    · simp [serial_step, serial_read, ht] at hstep
    · have hr : serial_read 2 t = .ok (t.take 2, t.drop 2) := by
        unfold serial_read
        rw [if_neg ht]
      have hg : ¬ (t.take 2).length < 2 := by
        simp [List.length_take]
        omega
      by_cases hp : (t.drop 2).length < unpack_u16be (t.take 2)
      · have hr2 : serial_read (unpack_u16be (t.take 2)) (t.drop 2) =
            .error .serialException := by
          unfold serial_read
          rw [if_pos hp]
        simp only [serial_step] at hstep
        rw [hr] at hstep
        simp [hg, hr2, ht] at hstep
      · have hr2 : serial_read (unpack_u16be (t.take 2)) (t.drop 2) =
            .ok ((t.drop 2).take (unpack_u16be (t.take 2)),
              (t.drop 2).drop (unpack_u16be (t.take 2))) := by
          unfold serial_read
          rw [if_neg hp]
        simp only [serial_step] at hstep
        rw [hr] at hstep
        simp [hg, hr2, ht] at hstep
        rw [← hstep.1]
        simp [List.length_take, List.length_drop] at hp ⊢
        omega

theorem c6_short_read_witness :
    socket_step dummyCtx [7] = .disconnected ∧
      socket_step dummyCtx (0 :: 5 :: [65, 66]) = .disconnected ∧
      serial_step [7] = .crashed .serialException ∧
      serial_step (0 :: 5 :: [65, 66]) = .crashed .serialException ∧
      ([65, 66] : List Nat).length = unpack_u16be ([0, 2, 65, 66].take 2) :=
  have h := c6_short_read_closes_never_partial dummyCtx [7] 0 5 [65, 66]
    (by decide) (by decide)
  ⟨h.1, h.2.1, h.2.2.1, h.2.2.2.1, h.2.2.2.2 [0, 2, 65, 66] [65, 66] [] rfl⟩

/-- C7: with the allowlist configured as the set containing exactly 42, an
inbound text message from sender 7 is dropped with a logged warning (the
handler is never invoked), while a message from sender 42 is forwarded to
the handler as the normalized `IncomingMessage`. -/
theorem c7_allowlist_blocks_7_admits_42 (chat : Int) (t : String) (h : t ≠ "") :
    process_update (init_allowed_users (some [42])) ⟨1, some ⟨some t, some 7, chat⟩⟩ =
        .blocked (some 7) ∧
      process_update (init_allowed_users (some [42])) ⟨1, some ⟨some t, some 42, chat⟩⟩ =
        .delivered ⟨"telegram", toString chat, "42", t⟩ := by
  refine ⟨?_, ?_⟩
  · simp [process_update, init_allowed_users, allow_truthy, in_allow, h, pyStrOfOptInt]
  · simp [process_update, init_allowed_users, allow_truthy, in_allow, h, pyStrOfOptInt]
    rfl

theorem c7_witness :
    process_update (init_allowed_users (some [42])) ⟨1, some ⟨some "hello", some 7, 5⟩⟩ =
        .blocked (some 7) ∧
      process_update (init_allowed_users (some [42])) ⟨1, some ⟨some "hello", some 42, 5⟩⟩ =
        .delivered ⟨"telegram", "5", "42", "hello"⟩ :=
  c7_allowlist_blocks_7_admits_42 5 "hello" (by decide)

/-- C8: for every RPC payload whose `type` discriminator is a string other
than "api" and "tool", `handle_message` returns exactly the JSON object
with an "error" field reading "Unknown type: <t>"; in particular, the raw
payload with type "bogus" yields exactly that encoded error object. -/
theorem c8_unknown_type_error_reply (ctx : BridgeCtx) (t : String)
    (rest : List (String × Json)) (h1 : t ≠ "api") (h2 : t ≠ "tool") :
    handle_message_parsed ctx (Json.obj (("type", Json.str t) :: rest)) =
        .ok (json_dumps (Json.obj [("error", Json.str ("Unknown type: " ++ t))])) ∧
      handle_message ctx "\x7b\"type\": \"bogus\"\x7d" =
        .ok "\x7b\"error\": \"Unknown type: bogus\"\x7d" := by
  constructor
  · simp [handle_message_parsed, pyGet, alookup, bind, Except.bind, h1, h2,
      unknown_type_reply, pyStr]
  · rfl

theorem c8_witness :
    handle_message_parsed dummyCtx (Json.obj [("type", Json.str "bogus")]) =
      .ok (json_dumps (Json.obj [("error", Json.str ("Unknown type: " ++ "bogus"))])) :=
  (c8_unknown_type_error_reply dummyCtx "bogus" [] (by decide) (by decide)).1

/-- C9: calling `stop_all` twice in succession never raises (the model is
a total function) and the second call is a no-op: the first call clears
the task list, and the second call performs no cancellation and no channel
side effects and leaves the router state, and with it every registered
channel's state, exactly as the first call left it. -/
theorem c9_stop_all_idempotent (rs : RouterState) :
    stop_all (stop_all rs).1 = ((stop_all rs).1, ([] : List String)) := by
  obtain ⟨tasks, chans⟩ := rs
  have hmem : ∀ x ∈ (chans.map mqtt_stop).map Prod.fst, x = (⟨false, none⟩ : MqttState) := by
    intro x hx
    rw [List.map_map] at hx
    obtain ⟨c, _, hc⟩ := List.mem_map.mp hx
    rw [← hc]
    exact mqtt_stopped_state c
  have haux := stop_maps_fix ((chans.map mqtt_stop).map Prod.fst) hmem
  simp only [stop_all, List.map_nil, List.nil_append]
  rw [haux.1, haux.2]

/-- C10: passing an explicitly empty allowlist behaves identically to
passing none at all — both `TelegramChannel.__init__` and
`TelegramTransport.__init__` store `None` (`init_allowed_users` collapses
the empty list), and under that stored value every sender is admitted to
the handler. -/
theorem c10_empty_allowlist_unrestricted :
    init_allowed_users (some []) = none ∧
      init_allowed_users none = none ∧
      ∀ (uid chat : Int) (t : String), t ≠ "" →
        process_update (init_allowed_users (some [])) ⟨1, some ⟨some t, some uid, chat⟩⟩ =
          .delivered ⟨"telegram", toString chat, toString uid, t⟩ := by
  refine ⟨rfl, rfl, ?_⟩
  intro uid chat t h
  simp [process_update, init_allowed_users, allow_truthy, in_allow, h, pyStrOfOptInt]

theorem c10_witness :
    process_update (init_allowed_users (some [])) ⟨1, some ⟨some "hi", some 7, 9⟩⟩ =
      .delivered ⟨"telegram", "9", "7", "hi"⟩ :=
  c10_empty_allowlist_unrestricted.2.2 7 9 "hi" (by decide)
